import Mathlib

/-
  Verification development for the BlocksNet block optimizer
  (src/blocksnet/method/block_optimizer.py).

  The Python module is shallowly embedded: pandas data frames become lists of
  row structures, dictionaries become association lists with Python's
  overwrite-on-insert semantics, numeric columns become rationals, and the
  PuLP linear program becomes an explicit collection of constraint lists
  together with a satisfaction predicate on integer-valued assignments.
-/

namespace BlocksNet

/-- Land-use categories, from blocksnet.models.land_use.LandUse as used by
the optimizer. -/
inductive LandUse where
  | residential
  | business
  | recreation
  | special
  | industrial
  | agriculture
  | transport
deriving DecidableEq

/-- `Indicator` of block_optimizer.py: FSI and site-coverage bounds. -/
structure Indicator where
  FSI_min : ℚ
  FSI_max : ℚ
  site_coverage_min : ℚ
  site_coverage_max : ℚ

/-- `LAND_USE_INDICATORS` table of block_optimizer.py. -/
def LAND_USE_INDICATORS : LandUse → Indicator
  | .residential => ⟨1/2, 3, 1/5, 4/5⟩
  | .business => ⟨1, 3, 0, 4/5⟩
  | .recreation => ⟨1/20, 1/5, 0, 3/10⟩
  | .special => ⟨1/20, 1/5, 1/20, 3/20⟩
  | .industrial => ⟨3/10, 3/2, 1/5, 4/5⟩
  | .agriculture => ⟨1/10, 1/5, 0, 3/5⟩
  | .transport => ⟨1/5, 1, 0, 4/5⟩

/-- A buildable facility option ("brick") of a service type: capacity
provided and area consumed. -/
structure Brick where
  capacity : ℚ
  area : ℚ

/-- A service type as the optimizer reads it: name, per-1000-population
demand rate (`demand`), accessibility threshold (`accessibility`), brick
catalog, and the demand-from-population function `calculate_in_need`
(an external model method, kept abstract as a function field). -/
structure ServiceType where
  name : String
  demand : ℚ
  accessibility : ℚ
  bricks : List Brick
  calculate_in_need : ℚ → ℚ

/-- One row of `city_model.get_blocks_gdf(False)`: a block id, its
population and its per-service capacity columns (`capacity_<name>`,
exposed as a function from the service name). -/
structure BlockRow where
  id : Nat
  population : ℚ
  capacity : String → ℚ

instance : Inhabited BlockRow := ⟨⟨0, 0, fun _ => 0⟩⟩

/-- One row of the `bricks_df` data frame built by `get_bricks_df`. -/
structure BrickRow where
  service_type : String
  capacity : ℚ
  area : ℚ

instance : Inhabited BrickRow := ⟨⟨"", 0, 0⟩⟩

/-- An installed service instance on a block (`block.all_services`
element, viewed through `serv.to_dict()`). -/
structure ServiceInstance where
  service_type : String
  capacity : ℚ

/-- The part of a city-model block that `get_deleting_update_df` reads. -/
structure BlockModel where
  population : ℚ
  all_services : List ServiceInstance

/-- Values of one block's decision variables: one integer count per
`bricks_df` row index and one integer population variable. -/
structure Assignment where
  counts : Nat → ℤ
  population : ℤ

/-! ## Demand/Capacity estimator (`get_capacity_demand`) -/

/-- `gdf.loc[selected_block_id, "population"] = 0`: the blocks table with
the selected block's population zeroed. -/
def zeroed_gdf (gdf : List BlockRow) (sel : Nat) : List BlockRow :=
  gdf.map fun b => if b.id = sel then { b with population := 0 } else b

/-- `gdf.loc[selected_block_id].to_dict()`: the selected block's row,
snapshotted before the population is zeroed. -/
def selected_block_row (gdf : List BlockRow) (sel : Nat) : BlockRow :=
  (gdf.find? fun b => b.id = sel).getD default

/-- `context_gdf`: the catchment of service `s` around the selected
block — rows of the (population-zeroed) blocks table whose accessibility
to or from the selected block is within the service's threshold. -/
def context_gdf (gdf : List BlockRow) (sel : Nat) (accTo accFrom : Nat → ℚ)
    (s : ServiceType) : List BlockRow :=
  (zeroed_gdf gdf sel).filter fun b =>
    accTo b.id ≤ s.accessibility ∨ accFrom b.id ≤ s.accessibility

/-- `demand_local`: the service's demand function summed over the
catchment's (zeroed) populations. -/
def demand_local (gdf : List BlockRow) (sel : Nat) (accTo accFrom : Nat → ℚ)
    (s : ServiceType) : ℚ :=
  ((context_gdf gdf sel accTo accFrom s).map fun b => s.calculate_in_need b.population).sum

/-- `capacity_local`: the catchment's summed capacity column minus the
selected block's own capacity. -/
def capacity_local (gdf : List BlockRow) (sel : Nat) (accTo accFrom : Nat → ℚ)
    (s : ServiceType) : ℚ :=
  ((context_gdf gdf sel accTo accFrom s).map fun b => b.capacity s.name).sum
    - (selected_block_row gdf sel).capacity s.name

/-- `demand_global`: the demand function summed over the whole
(population-zeroed) blocks table. -/
def demand_global (gdf : List BlockRow) (sel : Nat) (s : ServiceType) : ℚ :=
  ((zeroed_gdf gdf sel).map fun b => s.calculate_in_need b.population).sum

/-- `capacity_global`: the whole table's capacity column minus the
selected block's own capacity. -/
def capacity_global (gdf : List BlockRow) (sel : Nat) (s : ServiceType) : ℚ :=
  ((zeroed_gdf gdf sel).map fun b => b.capacity s.name).sum
    - (selected_block_row gdf sel).capacity s.name

/-- `capacity_left = capacity_global - demand_global` for one service. -/
def capacity_left (gdf : List BlockRow) (sel : Nat) (s : ServiceType) : ℚ :=
  capacity_global gdf sel s - demand_global gdf sel s

/-- The running-minimum loop of `get_capacity_demand`: starting from the
current best `(min_capacity_left, min_service)` pair, scan the remaining
services and update on a strictly smaller `capacity_left`. -/
def minGo (cl : ServiceType → ℚ) (p : ℚ × ServiceType) :
    List ServiceType → ℚ × ServiceType
  | [] => p
  | s :: l => if cl s < p.1 then minGo cl (cl s, s) l else minGo cl p l

/-- `get_capacity_demand`: per-service `{demand_local, capacity_local}`
constants, and the population ceiling
`max(min_capacity_left / min_service.demand * 1000, 0)` taken over the
scarcest service city-wide.  With `min_capacity_left` starting at `+inf`,
the first service always replaces the initial state, so the loop is the
`minGo` scan seeded with the first service; with no services the Python
code would fail on `min_service = None`, modelled as `none`. -/
def get_capacity_demand (gdf : List BlockRow) (sel : Nat) (accTo accFrom : Nat → ℚ)
    (servs : List ServiceType) : List (String × ℚ × ℚ) × Option ℚ :=
  (servs.map fun s =>
      (s.name, demand_local gdf sel accTo accFrom s, capacity_local gdf sel accTo accFrom s),
    match servs with
    | [] => none
    | s₀ :: rest =>
      let p := minGo (capacity_left gdf sel) (capacity_left gdf sel s₀, s₀) rest
      some (max (p.1 / p.2.demand * 1000) 0))

/-! ## Facility catalog adapter (`get_bricks_df`) -/

/-- `get_bricks_df`: flatten each service type's bricks into
`{service_type, capacity, area}` rows. -/
def get_bricks_df (service_types : List ServiceType) : List BrickRow :=
  service_types.flatMap fun s =>
    s.bricks.map fun b => ⟨s.name, b.capacity, b.area⟩

/-! ## Constraint model builder (`generate_lp_problem`) -/

/-- The `service_bricks_idxs` of one service: the `bricks_df` row indices
whose `service_type` equals the service's name. -/
def service_bricks_idxs (bricks : List BrickRow) (sname : String) : List Nat :=
  (List.range bricks.length).filter fun n => (bricks.getD n default).service_type = sname

/-- `fit_function`: built capacity of one service,
`lpSum(service_counts[n] * bricks_df.loc[n].capacity for n in service_bricks_idxs)`. -/
def fit_function (bricks : List BrickRow) (counts : Nat → ℤ) (sname : String) : ℚ :=
  ((service_bricks_idxs bricks sname).map fun n =>
    (counts n : ℚ) * (bricks.getD n default).capacity).sum

/-- `demand_from_new_population = (population * serv.demand) / 1000`. -/
def demand_from_new_population (population : ℤ) (s : ServiceType) : ℚ :=
  (population : ℚ) * s.demand / 1000

/-- `scenario_coef_sum`: the sum of scenario weights whose keys intersect
the block's candidate service names (0 for the empty scenario). -/
def scenario_coef_sum (scenario : List (String × ℚ)) (servs : List ServiceType) : ℚ :=
  ((scenario.filter fun p => (servs.map ServiceType.name).contains p.1).map Prod.snd).sum

/-- `default_weight = (1 - scenario_coef_sum) / len(NEW_SERVICE_TYPES[key])`. -/
def default_weight (scenario : List (String × ℚ)) (servs : List ServiceType) : ℚ :=
  (1 - scenario_coef_sum scenario servs) / (servs.length : ℚ)

/-- `service_weight = SCENARIO.get(serv.name, default_weight)`. -/
def service_weight (scenario : List (String × ℚ)) (servs : List ServiceType)
    (sname : String) : ℚ :=
  match scenario.find? fun p => p.1 = sname with
  | some p => p.2
  | none => default_weight scenario servs

/-- The deficit constraints `fit_function <= demand_local - capacity_local`,
added for each candidate service with `demand_local > 0` and
`capacity_local < demand_local`; recorded as `(service name, bound)`. -/
def deficit_constraints (servs : List ServiceType) (consts : String → ℚ × ℚ) :
    List (String × ℚ) :=
  servs.filterMap fun s =>
    if 0 < (consts s.name).1 ∧ (consts s.name).2 < (consts s.name).1
    then some (s.name, (consts s.name).1 - (consts s.name).2) else none

/-- The population constraints
`demand_from_new_population <= capacity_local - demand_local`, added for
each candidate service with `capacity_local > demand_local` on a block
whose target land use is residential; recorded as
`(service name, demand rate, bound)`. -/
def population_constraints (lu : LandUse) (servs : List ServiceType)
    (consts : String → ℚ × ℚ) : List (String × ℚ × ℚ) :=
  servs.filterMap fun s =>
    if (consts s.name).1 < (consts s.name).2 ∧ lu = LandUse.residential
    then some (s.name, s.demand, (consts s.name).2 - (consts s.name).1) else none

/-- `sum(service_counts[n] * bricks_df.loc[n].area / block_area for n in bricks_df.index)`. -/
def area_ratio_sum (bricks : List BrickRow) (counts : Nat → ℤ) (block_area : ℚ) : ℚ :=
  ((List.range bricks.length).map fun n =>
    (counts n : ℚ) * (bricks.getD n default).area / block_area).sum

/-- `sum(service_counts[n] * bricks_df.loc[n].area for n in bricks_df.index)`. -/
def total_built_area (bricks : List BrickRow) (counts : Nat → ℤ) : ℚ :=
  ((List.range bricks.length).map fun n =>
    (counts n : ℚ) * (bricks.getD n default).area).sum

/-- The upper bound of a brick-count variable:
`MAX_FACILITIES` when configured, no bound (`True`) otherwise. -/
def ubOk : Option ℤ → ℤ → Prop
  | none, _ => True
  | some M, x => x ≤ M

instance (mf : Option ℤ) (x : ℤ) : Decidable (ubOk mf x) :=
  match mf with
  | none => isTrue trivial
  | some M => inferInstanceAs (Decidable (x ≤ M))

/-- An assignment satisfies one block's section of the generated program:
all deficit constraints, all population constraints, the FSI band, the
total-area constraint, and the declared variable bounds
(`LpVariable.dicts(..., 0, MAX_FACILITIES, cat=LpInteger)` for brick
counts, `LpVariable(..., 0, None, cat=LpInteger)` for population). -/
def block_sat (lu : LandUse) (servs : List ServiceType) (consts : String → ℚ × ℚ)
    (bricks : List BrickRow) (block_area : ℚ) (maxFac : Option ℤ) (a : Assignment) : Prop :=
  (∀ p ∈ deficit_constraints servs consts, fit_function bricks a.counts p.1 ≤ p.2) ∧
  (∀ p ∈ population_constraints lu servs consts,
    (a.population : ℚ) * p.2.1 / 1000 ≤ p.2.2) ∧
  area_ratio_sum bricks a.counts block_area ≤ (LAND_USE_INDICATORS lu).FSI_max ∧
  (LAND_USE_INDICATORS lu).FSI_min ≤ area_ratio_sum bricks a.counts block_area ∧
  total_built_area bricks a.counts ≤ block_area ∧
  (∀ n, n < bricks.length → 0 ≤ a.counts n ∧ ubOk maxFac (a.counts n)) ∧
  0 ≤ a.population

/-- The per-block data `generate_lp_problem` reads: the block id, its
target land use (`BLOCKS_LANUSE_DICT[key]`), candidate service types
(`NEW_SERVICE_TYPES[key]`), the estimator constants (`CONSTANTS[key][0]`,
looked up by service name), the bricks table (`BRICKS[key]`) and
`city_model[key].site_area`. -/
structure BlockInput where
  id : Nat
  land_use : LandUse
  new_service_types : List ServiceType
  consts : String → ℚ × ℚ
  bricks : List BrickRow
  site_area : ℚ

/-- An assignment family satisfies the whole generated program iff it
satisfies every block's section (the program is the union of the
per-block constraints, with no cross-block constraint). -/
def joint_sat (maxFac : Option ℤ) (blocks : List BlockInput) (asg : Nat → Assignment) : Prop :=
  ∀ b ∈ blocks, block_sat b.land_use b.new_service_types b.consts b.bricks
    b.site_area maxFac (asg b.id)

/-- One block's contribution to `lp_sum_components`: for each candidate
service, `service_weight * (C_i - D_i)` is appended exactly when
`demand_local > 0 and capacity_local < demand_local`, where
`C_i = fit_function + capacity_local` and
`D_i = demand_local + demand_from_new_population`. -/
def block_objective (scenario : List (String × ℚ)) (servs : List ServiceType)
    (consts : String → ℚ × ℚ) (bricks : List BrickRow) (a : Assignment) : ℚ :=
  (servs.map fun s =>
    if 0 < (consts s.name).1 ∧ (consts s.name).2 < (consts s.name).1 then
      service_weight scenario servs s.name *
        ((fit_function bricks a.counts s.name + (consts s.name).2) -
          ((consts s.name).1 + (a.population : ℚ) * s.demand / 1000))
    else 0).sum

/-- The objective set by `prob += sum(i for i in lp_sum_components)`:
the sum of all appended per-block components. -/
def joint_objective (scenario : List (String × ℚ)) (blocks : List BlockInput)
    (asg : Nat → Assignment) : ℚ :=
  (blocks.map fun b =>
    block_objective scenario b.new_service_types b.consts b.bricks (asg b.id)).sum

/-- The objective as the specification's sentence describes it: the sum of
`weight × (C − D)` over all block-category pairs, with no pair omitted.
Stated from the spec's words for comparison with `joint_objective`. -/
def spec_joint_objective (scenario : List (String × ℚ)) (blocks : List BlockInput)
    (asg : Nat → Assignment) : ℚ :=
  (blocks.map fun b =>
    (b.new_service_types.map fun s =>
      service_weight scenario b.new_service_types s.name *
        ((fit_function b.bricks (asg b.id).counts s.name + (b.consts s.name).2) -
          ((b.consts s.name).1 + ((asg b.id).population : ℚ) * s.demand / 1000))).sum).sum

/-- Building one block's section of the LP.  Python failure modes are made
explicit: with no candidate service types, `default_weight` divides by
`len([]) = 0` (a `ZeroDivisionError`); with candidate services but an
empty bricks table, `pd.DataFrame([])` has no `service_type` column and
`bricks_df[bricks_df.service_type == serv.name]` raises an
`AttributeError`.  Otherwise the section is built and consists of the
deficit and population constraint lists (plus the always-present FSI and
area constraints captured by `block_sat`). -/
def generate_lp_problem_block (lu : LandUse) (servs : List ServiceType)
    (consts : String → ℚ × ℚ) (bricks : List BrickRow) :
    Except String (List (String × ℚ) × List (String × ℚ × ℚ)) :=
  if servs.isEmpty then .error "ZeroDivisionError: division by zero"
  else if bricks.isEmpty then
    .error "AttributeError: DataFrame object has no attribute service_type"
  else .ok (deficit_constraints servs consts, population_constraints lu servs consts)

/-! ## Post-solve behaviour of `calculate` -/

/-- PuLP solver status codes. -/
inductive SolverStatus where
  | optimal
  | infeasible
  | unbounded
  | not_solved
  | undefined
deriving DecidableEq

/-- `LpStatus[prob.status]` display names. -/
def LpStatusName : SolverStatus → String
  | .optimal => "Optimal"
  | .infeasible => "Infeasible"
  | .unbounded => "Unbounded"
  | .not_solved => "Not Solved"
  | .undefined => "Undefined"

/-- Observable behaviour of `calculate` after `prob.solve(...)` returns:
what it prints, whether `get_optimal_update_df` (the solution decoder,
which produces the update table) is invoked, and whether any
infeasible-program failure is raised. -/
structure PostSolveBehavior where
  printed : List String
  decoder_ran : Bool
  raises_failure : Bool

/-- The tail of `calculate`: it prints `LpStatus[prob.status]` and then
unconditionally calls `get_optimal_update_df(prob)`; no status check and
no raise statement exist on this path. -/
def calculate_post_solve (status : SolverStatus) : PostSolveBehavior :=
  { printed := [LpStatusName status], decoder_ran := true, raises_failure := false }

/-! ## Demolition delta builder (`get_deleting_update_df`) -/

/-- Python dict assignment `d[k] = v`: overwrite the existing key's value
in place (keys are unique in a dict, so the first hit is the only one),
or append the new key at the end, preserving insertion order. -/
def dict_set : List (String × ℚ) → String → ℚ → List (String × ℚ)
  | [], k, v => [(k, v)]
  | p :: d, k, v => if p.1 = k then (k, v) :: d else p :: dict_set d k v

/-- Python dict lookup `d.get(k)`. -/
def dict_get (d : List (String × ℚ)) (k : String) : Option ℚ :=
  (d.find? fun p => p.1 == k).map Prod.snd

/-- The single row built by `get_deleting_update_df`: for every installed
service instance, `service_capacities[service_type] = -capacity` (later
instances of the same type overwrite earlier ones), and, when
`delete_population` holds, `service_capacities["population"] = -population`. -/
def get_deleting_update_row (b : BlockModel) (delete_population : Bool) :
    List (String × ℚ) :=
  let d := b.all_services.foldl (fun d s => dict_set d s.service_type (-s.capacity)) []
  if delete_population then dict_set d "population" (-b.population) else d

/-! ## Update tables and `combine_first` (`get_provision_diff`) -/

/-- An update table as a partial cell function: block index and column to
an optional value (`none` models both a missing row/column and a NaN
cell). -/
def UpdateTable := Nat → String → Option ℚ

/-- `pd.DataFrame.from_dict({i: row}, orient="index")` as a table. -/
def from_dict_row (i : Nat) (row : List (String × ℚ)) : UpdateTable :=
  fun j c => if j = i then dict_get row c else none

/-- `get_deleting_update_df` as a one-row table. -/
def get_deleting_update_df (b : BlockModel) (sel : Nat) (delete_population : Bool) :
    UpdateTable :=
  from_dict_row sel (get_deleting_update_row b delete_population)

/-- `a.combine_first(d)`: each cell takes `a`'s value when present
(non-NaN) and falls back to `d`'s. -/
def combine_first (a d : UpdateTable) : UpdateTable :=
  fun i c => (a i c).orElse fun _ => d i c

/-! ## Helper lemmas -/

theorem sum_map_div {α : Type} (l : List α) (f : α → ℚ) (A : ℚ) :
    (l.map fun n => f n / A).sum = (l.map f).sum / A := by
  induction l with
  | nil => simp
  | cons a l ih => simp [ih, add_div]

theorem area_ratio_sum_eq (bricks : List BrickRow) (counts : Nat → ℤ) (A : ℚ) :
    area_ratio_sum bricks counts A = total_built_area bricks counts / A := by
  unfold area_ratio_sum total_built_area
  exact sum_map_div _ (fun n => (counts n : ℚ) * (bricks.getD n default).area) A

theorem sum_map_ite {α : Type} (l : List α) (p : α → Prop) [DecidablePred p] (f : α → ℚ) :
    (l.map fun a => if p a then f a else 0).sum
      = ((l.filter fun a => decide (p a)).map f).sum := by
  induction l with
  | nil => rfl
  | cons a l ih => by_cases h : p a <;> simp [h, ih]

theorem mem_get_bricks_df {r : BrickRow} {servs : List ServiceType}
    (h : r ∈ get_bricks_df servs) : ∃ t ∈ servs, r.service_type = t.name ∧ t.bricks ≠ [] := by
  unfold get_bricks_df at h
  obtain ⟨t, ht, hr⟩ := List.mem_flatMap.mp h
  obtain ⟨b, hb, rfl⟩ := List.mem_map.mp hr
  exact ⟨t, ht, rfl, List.ne_nil_of_mem hb⟩

theorem zero_population_id (sel : Nat) (b : BlockRow) :
    (if b.id = sel then { b with population := 0 } else b).id = b.id := by
  split <;> rfl

theorem zero_population_capacity (sel : Nat) (b : BlockRow) :
    (if b.id = sel then { b with population := 0 } else b).capacity = b.capacity := by
  split <;> rfl

theorem zero_population_pop (sel : Nat) (b : BlockRow) :
    (if b.id = sel then { b with population := 0 } else b).population
      = if b.id = sel then 0 else b.population := by
  split <;> rfl

instance (lu : LandUse) (servs : List ServiceType) (consts : String → ℚ × ℚ)
    (bricks : List BrickRow) (A : ℚ) (mf : Option ℤ) (a : Assignment) :
    Decidable (block_sat lu servs consts bricks A mf a) := by
  unfold block_sat
  infer_instance

instance (mf : Option ℤ) (blocks : List BlockInput) (asg : Nat → Assignment) :
    Decidable (joint_sat mf blocks asg) := by
  unfold joint_sat
  infer_instance

/-- `constants, min_population = self.CONSTANTS[key]`: `generate_lp_problem`
unpacks the estimator pair but only the first component reaches any
constraint. -/
def block_sat_of_constants (lu : LandUse) (servs : List ServiceType)
    (CONST : (String → ℚ × ℚ) × ℚ) (bricks : List BrickRow) (A : ℚ)
    (mf : Option ℤ) (a : Assignment) : Prop :=
  block_sat lu servs CONST.1 bricks A mf a

/-! ## Claims -/

/-- C1: the claim says a non-optimal solver status raises an explicit
InfeasibleProgram failure and skips the decoder.  The code instead prints
the status string and unconditionally runs the decoder, producing an
update table from the meaningless assignment: at the infeasible status,
`calculate` prints "Infeasible", runs `get_optimal_update_df`, and raises
nothing. -/
theorem c1_infeasible_status_decoder_still_runs :
    (calculate_post_solve .infeasible).printed = ["Infeasible"] ∧
    (calculate_post_solve .infeasible).decoder_ran = true ∧
    (calculate_post_solve .infeasible).raises_failure = false :=
  ⟨rfl, rfl, rfl⟩

/-- C5: every assignment satisfying the generated program satisfies, for
every block: total built area ≤ site area; built floor-area ratio within
the target land use's [FSI_min, FSI_max]; and every brick count
non-negative and bounded by the facility cap whenever one is configured. -/
theorem c5_solved_allocation_invariants (mf : Option ℤ) (blocks : List BlockInput)
    (asg : Nat → Assignment) (h : joint_sat mf blocks asg) :
    ∀ b ∈ blocks,
      total_built_area b.bricks (asg b.id).counts ≤ b.site_area ∧
      (LAND_USE_INDICATORS b.land_use).FSI_min
        ≤ total_built_area b.bricks (asg b.id).counts / b.site_area ∧
      total_built_area b.bricks (asg b.id).counts / b.site_area
        ≤ (LAND_USE_INDICATORS b.land_use).FSI_max ∧
      ∀ n, n < b.bricks.length →
        0 ≤ (asg b.id).counts n ∧ ∀ M, mf = some M → (asg b.id).counts n ≤ M := by
  intro b hb
  obtain ⟨-, -, hmax, hmin, harea, hbounds, -⟩ := h b hb
  rw [area_ratio_sum_eq] at hmax hmin
  refine ⟨harea, hmin, hmax, fun n hn => ⟨(hbounds n hn).1, fun M hM => ?_⟩⟩
  have := (hbounds n hn).2
  rw [hM] at this
  exact this

/-- C5 witness: a one-block instance with a single brick satisfying the
generated program, at which the invariants evaluate. -/
theorem c5_witness :
    joint_sat (some 5)
        [⟨0, .recreation, [⟨"w", 0, 0, [⟨50, 100⟩], fun _ => 0⟩],
          fun _ => (100, 0), [⟨"w", 50, 100⟩], 1000⟩]
        (fun _ => ⟨fun _ => 1, 0⟩) ∧
      (total_built_area [⟨"w", 50, 100⟩] ((fun _ => (⟨fun _ => 1, 0⟩ : Assignment)) 0).counts
          ≤ (1000 : ℚ) ∧
        (LAND_USE_INDICATORS .recreation).FSI_min
          ≤ total_built_area [⟨"w", 50, 100⟩] ((fun _ => (⟨fun _ => 1, 0⟩ : Assignment)) 0).counts / 1000 ∧
        total_built_area [⟨"w", 50, 100⟩] ((fun _ => (⟨fun _ => 1, 0⟩ : Assignment)) 0).counts / 1000
          ≤ (LAND_USE_INDICATORS .recreation).FSI_max ∧
        ∀ n, n < ([⟨"w", 50, 100⟩] : List BrickRow).length →
          0 ≤ ((fun _ => (⟨fun _ => 1, 0⟩ : Assignment)) 0).counts n ∧
          ∀ M, (some 5 : Option ℤ) = some M →
            ((fun _ => (⟨fun _ => 1, 0⟩ : Assignment)) 0).counts n ≤ M) := by
  have hsat : joint_sat (some 5)
      [⟨0, .recreation, [⟨"w", 0, 0, [⟨50, 100⟩], fun _ => 0⟩],
        fun _ => (100, 0), [⟨"w", 50, 100⟩], 1000⟩]
      (fun _ => ⟨fun _ => 1, 0⟩) := by
    intro b hb
    rw [List.mem_singleton] at hb
    subst hb
    refine ⟨?_, ?_, ?_, ?_, ?_, ?_, ?_⟩ <;>
      norm_num [block_sat, deficit_constraints, population_constraints, fit_function,
        service_bricks_idxs, area_ratio_sum, total_built_area,
        LAND_USE_INDICATORS, ubOk, List.filterMap_cons, List.range_succ]
  exact ⟨hsat,
    c5_solved_allocation_invariants _ _ _ hsat
      ⟨0, .recreation, [⟨"w", 0, 0, [⟨50, 100⟩], fun _ => 0⟩],
        fun _ => (100, 0), [⟨"w", 50, 100⟩], 1000⟩ (List.mem_singleton.mpr rfl)⟩

/-- C6: the deficit constraint `built_capacity ≤ demand_local − capacity_local`
for a candidate service is in the program exactly when `demand_local > 0`
and `capacity_local < demand_local`, and any satisfying assignment
respects it. -/
theorem c6_deficit_constraint_exact (lu : LandUse) (servs : List ServiceType)
    (consts : String → ℚ × ℚ) (bricks : List BrickRow) (A : ℚ) (mf : Option ℤ)
    (a : Assignment) (s : ServiceType) (hs : s ∈ servs) :
    ((s.name, (consts s.name).1 - (consts s.name).2) ∈ deficit_constraints servs consts ↔
      0 < (consts s.name).1 ∧ (consts s.name).2 < (consts s.name).1) ∧
    (block_sat lu servs consts bricks A mf a →
      0 < (consts s.name).1 → (consts s.name).2 < (consts s.name).1 →
      fit_function bricks a.counts s.name ≤ (consts s.name).1 - (consts s.name).2) := by
  have hmemo : ∀ hc : 0 < (consts s.name).1 ∧ (consts s.name).2 < (consts s.name).1,
      (s.name, (consts s.name).1 - (consts s.name).2) ∈ deficit_constraints servs consts :=
    fun hc => List.mem_filterMap.mpr ⟨s, hs, by rw [if_pos hc]⟩
  constructor
  · constructor
    · intro hmem
      obtain ⟨t, _, hEq⟩ := List.mem_filterMap.mp hmem
      by_cases hc : 0 < (consts t.name).1 ∧ (consts t.name).2 < (consts t.name).1
      · rw [if_pos hc] at hEq
        injection hEq with hEq
        rw [Prod.ext_iff] at hEq
        have h1 : t.name = s.name := hEq.1
        rw [← h1]
        exact hc
      · rw [if_neg hc] at hEq
        exact absurd hEq (by simp)
    · exact hmemo
  · intro hsat h1 h2
    exact hsat.1 _ (hmemo ⟨h1, h2⟩)

/-- C6 witness at a one-service block with a local deficit of 1. -/
theorem c6_witness :
    ((⟨"a", 0, 0, [], fun _ => 0⟩ : ServiceType) ∈ [(⟨"a", 0, 0, [], fun _ => 0⟩ : ServiceType)]) ∧
      ((("a", ((fun _ => ((2 : ℚ), (1 : ℚ))) "a").1 - ((fun _ => ((2 : ℚ), (1 : ℚ))) "a").2)
          ∈ deficit_constraints [⟨"a", 0, 0, [], fun _ => 0⟩] (fun _ => (2, 1)) ↔
        0 < ((fun _ => ((2 : ℚ), (1 : ℚ))) "a").1 ∧
          ((fun _ => ((2 : ℚ), (1 : ℚ))) "a").2 < ((fun _ => ((2 : ℚ), (1 : ℚ))) "a").1) ∧
      (block_sat .recreation [⟨"a", 0, 0, [], fun _ => 0⟩] (fun _ => (2, 1)) [] 1 none
          ⟨fun _ => 0, 0⟩ →
        0 < ((fun _ => ((2 : ℚ), (1 : ℚ))) "a").1 →
        ((fun _ => ((2 : ℚ), (1 : ℚ))) "a").2 < ((fun _ => ((2 : ℚ), (1 : ℚ))) "a").1 →
        fit_function [] (fun _ => 0) "a" ≤
          ((fun _ => ((2 : ℚ), (1 : ℚ))) "a").1 - ((fun _ => ((2 : ℚ), (1 : ℚ))) "a").2)) :=
  ⟨List.mem_singleton.mpr rfl,
    c6_deficit_constraint_exact .recreation _ _ [] 1 none ⟨fun _ => 0, 0⟩ _
      (List.mem_singleton.mpr rfl)⟩

/-- C7: the population constraint
`added_demand ≤ capacity_local − demand_local` for a candidate service is
in the program exactly when `capacity_local > demand_local` and the target
land use is residential; the population variable is otherwise only
lower-bounded by 0 (replacing it by any non-negative value meeting the
population constraints preserves satisfaction); and the estimator's
population ceiling (`CONSTANTS[key][1]`) never influences the program. -/
theorem c7_population_variable_bounds (lu : LandUse) (servs : List ServiceType)
    (consts : String → ℚ × ℚ) (bricks : List BrickRow) (A : ℚ) (mf : Option ℤ)
    (a : Assignment) (s : ServiceType) (hs : s ∈ servs) :
    ((s.name, s.demand, (consts s.name).2 - (consts s.name).1)
        ∈ population_constraints lu servs consts ↔
      (consts s.name).1 < (consts s.name).2 ∧ lu = LandUse.residential) ∧
    (∀ p : ℤ, block_sat lu servs consts bricks A mf a → 0 ≤ p →
      (∀ q ∈ population_constraints lu servs consts, (p : ℚ) * q.2.1 / 1000 ≤ q.2.2) →
      block_sat lu servs consts bricks A mf ⟨a.counts, p⟩) ∧
    (∀ mp mp' : ℚ,
      block_sat_of_constants lu servs (consts, mp) bricks A mf a ↔
        block_sat_of_constants lu servs (consts, mp') bricks A mf a) := by
  refine ⟨⟨?_, ?_⟩, ?_, fun _ _ => Iff.rfl⟩
  · intro hmem
    obtain ⟨t, _, hEq⟩ := List.mem_filterMap.mp hmem
    by_cases hc : (consts t.name).1 < (consts t.name).2 ∧ lu = LandUse.residential
    · rw [if_pos hc] at hEq
      injection hEq with hEq
      rw [Prod.ext_iff] at hEq
      have h1 : t.name = s.name := hEq.1
      rw [← h1]
      exact hc
    · rw [if_neg hc] at hEq
      exact absurd hEq (by simp)
  · intro hc
    exact List.mem_filterMap.mpr ⟨s, hs, by rw [if_pos hc]⟩
  · intro p hsat hp hq
    obtain ⟨h1, -, h3, h4, h5, h6, -⟩ := hsat
    exact ⟨h1, hq, h3, h4, h5, h6, hp⟩

/-- C7 witness at a residential block with a local surplus of 50. -/
theorem c7_witness :
    ((⟨"r", 10, 0, [], fun _ => 0⟩ : ServiceType) ∈ [(⟨"r", 10, 0, [], fun _ => 0⟩ : ServiceType)]) ∧
      ((("r", (10 : ℚ), ((fun _ => ((0 : ℚ), (50 : ℚ))) "r").2 - ((fun _ => ((0 : ℚ), (50 : ℚ))) "r").1)
          ∈ population_constraints .residential [⟨"r", 10, 0, [], fun _ => 0⟩] (fun _ => (0, 50)) ↔
        ((fun _ => ((0 : ℚ), (50 : ℚ))) "r").1 < ((fun _ => ((0 : ℚ), (50 : ℚ))) "r").2 ∧
          LandUse.residential = LandUse.residential) ∧
      (∀ p : ℤ, block_sat .residential [⟨"r", 10, 0, [], fun _ => 0⟩] (fun _ => (0, 50))
          [⟨"r", 10, 600⟩] 1000 none ⟨fun _ => 1, 0⟩ → 0 ≤ p →
        (∀ q ∈ population_constraints .residential [⟨"r", 10, 0, [], fun _ => 0⟩]
            (fun _ => (0, 50)), (p : ℚ) * q.2.1 / 1000 ≤ q.2.2) →
        block_sat .residential [⟨"r", 10, 0, [], fun _ => 0⟩] (fun _ => (0, 50))
          [⟨"r", 10, 600⟩] 1000 none ⟨fun _ => 1, p⟩) ∧
      (∀ mp mp' : ℚ,
        block_sat_of_constants .residential [⟨"r", 10, 0, [], fun _ => 0⟩]
            (fun _ => (0, 50), mp) [⟨"r", 10, 600⟩] 1000 none ⟨fun _ => 1, 0⟩ ↔
          block_sat_of_constants .residential [⟨"r", 10, 0, [], fun _ => 0⟩]
            (fun _ => (0, 50), mp') [⟨"r", 10, 600⟩] 1000 none ⟨fun _ => 1, 0⟩)) :=
  ⟨List.mem_singleton.mpr rfl,
    c7_population_variable_bounds .residential _ _ [⟨"r", 10, 600⟩] 1000 none
      ⟨fun _ => 1, 0⟩ _ (List.mem_singleton.mpr rfl)⟩

/-- C2 counterexample: a block whose single candidate service has
`demand_local = 0` (no deficit) contributes no objective term, so the
objective differs from the sum of `weight × (C − D)` over all
block-category pairs: the code's objective is 0 while the all-pairs sum
is 1. -/
theorem c2_counterexample :
    joint_objective []
        [⟨0, .residential, [⟨"b", 0, 0, [⟨1, 1⟩], fun _ => 0⟩],
          fun _ => (0, 0), [⟨"b", 1, 1⟩], 1000⟩]
        (fun _ => ⟨fun _ => 1, 0⟩) ≠
      spec_joint_objective []
        [⟨0, .residential, [⟨"b", 0, 0, [⟨1, 1⟩], fun _ => 0⟩],
          fun _ => (0, 0), [⟨"b", 1, 1⟩], 1000⟩]
        (fun _ => ⟨fun _ => 1, 0⟩) := by
  norm_num [joint_objective, spec_joint_objective, block_objective, service_weight,
    default_weight, scenario_coef_sum, fit_function, service_bricks_idxs,
    List.range_succ]

/-- C2 amended: the objective equals the sum of `weight × (C − D)` over
exactly the block-category pairs with `demand_local > 0` and
`capacity_local < demand_local`; pairs with no local deficit are
omitted. -/
theorem c2_amended_objective (scenario : List (String × ℚ)) (blocks : List BlockInput)
    (asg : Nat → Assignment) :
    joint_objective scenario blocks asg =
      (blocks.map fun b =>
        ((b.new_service_types.filter fun s =>
            decide (0 < (b.consts s.name).1 ∧ (b.consts s.name).2 < (b.consts s.name).1)).map
          fun s =>
            service_weight scenario b.new_service_types s.name *
              ((fit_function b.bricks (asg b.id).counts s.name + (b.consts s.name).2) -
                ((b.consts s.name).1 + ((asg b.id).population : ℚ) * s.demand / 1000))).sum).sum := by
  unfold joint_objective
  refine congrArg List.sum (List.map_congr_left fun b _ => ?_)
  unfold block_objective
  exact sum_map_ite _ _ _

/-- C8 counterexample: a block all of whose candidate services have zero
buildable bricks yields an empty bricks table, on which
`bricks_df[bricks_df.service_type == serv.name]` raises an
`AttributeError` — the calculation aborts with a hard error rather than
completing with a warning. -/
theorem c8_counterexample :
    generate_lp_problem_block .residential [⟨"z", 0, 0, [], fun _ => 0⟩] (fun _ => (0, 0))
        (get_bricks_df [⟨"z", 0, 0, [], fun _ => 0⟩])
      = .error "AttributeError: DataFrame object has no attribute service_type" := rfl

/-- C8 amended: when at least one candidate service has a brick option,
the program is built despite another candidate service having zero
bricks; that brick-less service contributes a trivially zero built
capacity for every assignment, and no warning or error is raised for
it. -/
theorem c8_amended_zero_brick_service (lu : LandUse) (servs : List ServiceType)
    (consts : String → ℚ × ℚ) (s : ServiceType) (hs : s ∈ servs)
    (hnonempty : get_bricks_df servs ≠ [])
    (hname : ∀ t ∈ servs, t.name = s.name → t.bricks = []) :
    generate_lp_problem_block lu servs consts (get_bricks_df servs)
        = .ok (deficit_constraints servs consts, population_constraints lu servs consts) ∧
      ∀ counts : Nat → ℤ, fit_function (get_bricks_df servs) counts s.name = 0 := by
  constructor
  · have h1 : servs.isEmpty = false := by
      cases servs with
      | nil => exact absurd hs (List.not_mem_nil s)
      | cons a l => rfl
    have h2 : (get_bricks_df servs).isEmpty = false := by
      cases hgb : get_bricks_df servs with
      | nil => exact absurd hgb hnonempty
      | cons a l => rfl
    simp [generate_lp_problem_block, h1, h2]
  · intro counts
    have hidx : service_bricks_idxs (get_bricks_df servs) s.name = [] := by
      rw [service_bricks_idxs, List.filter_eq_nil_iff]
      intro n hn
      rw [List.mem_range] at hn
      rw [List.getD_eq_getElem _ _ hn]
      simp only [decide_eq_true_eq]
      intro hEqName
      obtain ⟨t, ht, hty, hne⟩ := mem_get_bricks_df (List.getElem_mem hn)
      exact hne (hname t ht (by rw [← hty, hEqName]))
    rw [fit_function, hidx]
    rfl

/-- C8 amended witness: a two-service block where service "z" has no
bricks and service "y" has one. -/
theorem c8_witness :
    ((⟨"z", 0, 0, [], fun _ => 0⟩ : ServiceType)
        ∈ ([⟨"z", 0, 0, [], fun _ => 0⟩, ⟨"y", 0, 0, [⟨1, 1⟩], fun _ => 0⟩] : List ServiceType)) ∧
      (generate_lp_problem_block .business
            [⟨"z", 0, 0, [], fun _ => 0⟩, ⟨"y", 0, 0, [⟨1, 1⟩], fun _ => 0⟩] (fun _ => (0, 0))
            (get_bricks_df [⟨"z", 0, 0, [], fun _ => 0⟩, ⟨"y", 0, 0, [⟨1, 1⟩], fun _ => 0⟩])
          = .ok
            (deficit_constraints
              [⟨"z", 0, 0, [], fun _ => 0⟩, ⟨"y", 0, 0, [⟨1, 1⟩], fun _ => 0⟩] (fun _ => (0, 0)),
              population_constraints .business
                [⟨"z", 0, 0, [], fun _ => 0⟩, ⟨"y", 0, 0, [⟨1, 1⟩], fun _ => 0⟩] (fun _ => (0, 0))) ∧
        ∀ counts : Nat → ℤ,
          fit_function
            (get_bricks_df [⟨"z", 0, 0, [], fun _ => 0⟩, ⟨"y", 0, 0, [⟨1, 1⟩], fun _ => 0⟩])
            counts "z" = 0) := by
  refine ⟨List.mem_cons_self _ _, c8_amended_zero_brick_service .business _ _ _
    (List.mem_cons_self _ _) (by simp [get_bricks_df]) ?_⟩
  intro t ht
  rcases List.mem_cons.mp ht with h | h
  · subst h
    intro _
    rfl
  · rw [List.mem_singleton] at h
    subst h
    intro hcon
    exact absurd hcon (by decide)

theorem dict_get_cons (p : String × ℚ) (l : List (String × ℚ)) (k : String) :
    dict_get (p :: l) k = if p.1 = k then some p.2 else dict_get l k := by
  unfold dict_get
  rw [List.find?_cons]
  by_cases h : p.1 = k
  · rw [show (p.1 == k) = true from by simp [h], if_pos h]
    rfl
  · rw [show (p.1 == k) = false from by simp [h], if_neg h]

theorem dict_get_set (d : List (String × ℚ)) (k : String) (v : ℚ) (k' : String) :
    dict_get (dict_set d k v) k' = if k' = k then some v else dict_get d k' := by
  induction d with
  | nil =>
    rw [show dict_set [] k v = [(k, v)] from rfl, dict_get_cons]
    by_cases h : k' = k
    · rw [if_pos h.symm, if_pos h]
    · rw [if_neg fun hh : k = k' => h hh.symm, if_neg h]
  | cons p d ih =>
    by_cases hpk : p.1 = k
    · rw [show dict_set (p :: d) k v = (k, v) :: d from by rw [dict_set, if_pos hpk],
        dict_get_cons, dict_get_cons]
      by_cases h : k' = k
      · rw [if_pos h.symm, if_pos h]
      · rw [if_neg fun hh : k = k' => h hh.symm, if_neg h,
          if_neg fun hh : p.1 = k' => h (hpk.symm.trans hh).symm]
    · rw [show dict_set (p :: d) k v = p :: dict_set d k v from by rw [dict_set, if_neg hpk],
        dict_get_cons, dict_get_cons, ih]
      by_cases hpc : p.1 = k'
      · have h : ¬ k' = k := fun hh => hpk (hpc.trans hh)
        rw [if_pos hpc, if_pos hpc, if_neg h]
      · rw [if_neg hpc, if_neg hpc]

theorem dict_get_foldl_services (l : List ServiceInstance) (d : List (String × ℚ))
    (c : String) :
    dict_get (l.foldl (fun d s => dict_set d s.service_type (-s.capacity)) d) c
      = match l.reverse.find? fun s => s.service_type == c with
        | some s => some (-s.capacity)
        | none => dict_get d c := by
  induction l generalizing d with
  | nil => simp
  | cons s l ih =>
    rw [List.foldl_cons, ih, List.reverse_cons, List.find?_append]
    cases hf : l.reverse.find? fun s => s.service_type == c with
    | some t => simp [hf]
    | none =>
      rw [Option.none_or]
      by_cases hsc : s.service_type = c
      · simp [List.find?, hsc, dict_get_set]
      · have h2 : ¬ c = s.service_type := fun hh => hsc hh.symm
        have h3 : List.find? (fun t => t.service_type == c) [s] = none := by
          rw [List.find?_cons, show (s.service_type == c) = false from by simp [hsc]]
          rfl
        rw [h3]
        show dict_get (dict_set d s.service_type (-s.capacity)) c = dict_get d c
        rw [dict_get_set, if_neg h2]

/-- C9 counterexample: a block with two installed instances of the same
category "A" (capacities 10 and 20).  The dict write
`service_capacities[service_type] = -capacity` overwrites, so the row
maps "A" to −20 only; the claim's "for every installed instance, its
category maps to the negation of its full capacity" fails for the
capacity-10 instance. -/
theorem c9_counterexample :
    dict_get (get_deleting_update_row ⟨0, [⟨"A", 10⟩, ⟨"A", 20⟩]⟩ false) "A" = some (-20) ∧
      ¬ ∀ s ∈ ([⟨"A", 10⟩, ⟨"A", 20⟩] : List ServiceInstance),
          dict_get (get_deleting_update_row ⟨0, [⟨"A", 10⟩, ⟨"A", 20⟩]⟩ false) s.service_type
            = some (-s.capacity) := by
  have key : dict_get (get_deleting_update_row ⟨0, [⟨"A", 10⟩, ⟨"A", 20⟩]⟩ false) "A"
      = some (-20) := by
    show dict_get (dict_set (dict_set [] "A" (-10)) "A" (-20)) "A" = some (-20)
    rw [dict_get_set, if_pos rfl]
  refine ⟨key, fun h => ?_⟩
  have h1 : dict_get (get_deleting_update_row ⟨0, [⟨"A", 10⟩, ⟨"A", 20⟩]⟩ false) "A"
      = some (-(10 : ℚ)) := h ⟨"A", 10⟩ (List.mem_cons_self _ _)
  rw [key] at h1
  injection h1 with h1
  norm_num at h1

/-- C9 amended: the demolition row maps a column to the negated capacity
of the *last* installed instance of that category (same-category
instances overwrite earlier ones); with the delete-population flag it
maps "population" to the negated block population, and without the flag
a "population" entry exists only through the service instances
themselves. -/
theorem c9_amended_deletion_row (b : BlockModel) (dp : Bool) (c : String) :
    dict_get (get_deleting_update_row b dp) c
      = if dp = true ∧ c = "population" then some (-b.population)
        else
          match b.all_services.reverse.find? fun s => s.service_type == c with
          | some s => some (-s.capacity)
          | none => none := by
  unfold get_deleting_update_row
  cases dp with
  | false =>
    show dict_get (List.foldl (fun d s => dict_set d s.service_type (-s.capacity)) []
        b.all_services) c
      = if false = true ∧ c = "population" then some (-b.population)
        else
          match b.all_services.reverse.find? fun s => s.service_type == c with
          | some s => some (-s.capacity)
          | none => none
    rw [if_neg fun hh => Bool.false_ne_true hh.1]
    rw [dict_get_foldl_services]
    cases b.all_services.reverse.find? fun s => s.service_type == c with
    | some t => rfl
    | none => rfl
  | true =>
    show dict_get (dict_set (List.foldl (fun d s => dict_set d s.service_type (-s.capacity)) []
      b.all_services) "population" (-b.population)) c = _
    rw [dict_get_set, dict_get_foldl_services]
    by_cases hc : c = "population"
    · rw [if_pos hc, if_pos ⟨rfl, hc⟩]
    · rw [if_neg hc, if_neg fun hh => hc hh.2]
      cases b.all_services.reverse.find? fun s => s.service_type == c with
      | some t => rfl
      | none => rfl

/-- C10 counterexample: the demolition row of a block with zero installed
services and zero population is the all-zero row `{population: 0}`;
`combine_first` with an allocation update lacking a population entry adds
that zero cell, so the merge is not the allocation update. -/
theorem c10_counterexample :
    combine_first (from_dict_row 1 [("school", 5)]) (get_deleting_update_df ⟨0, []⟩ 1 true)
      ≠ from_dict_row 1 [("school", 5)] := by
  intro h
  have h1 := congrFun (congrFun h 1) "population"
  have hL : combine_first (from_dict_row 1 [("school", 5)])
      (get_deleting_update_df ⟨0, []⟩ 1 true) 1 "population" = some 0 := by
    show ((from_dict_row 1 [("school", 5)]) 1 "population").orElse
        (fun _ => (get_deleting_update_df ⟨0, []⟩ 1 true) 1 "population") = some 0
    have ha : (from_dict_row 1 [("school", 5)]) 1 "population" = none := by
      show (if (1 : Nat) = 1 then dict_get [("school", 5)] "population" else none) = none
      rw [if_pos rfl, dict_get_cons]
      rw [if_neg (by decide)]
      rfl
    rw [ha]
    show (get_deleting_update_df ⟨0, []⟩ 1 true) 1 "population" = some 0
    show (if (1 : Nat) = 1 then dict_get (get_deleting_update_row ⟨0, []⟩ true) "population"
      else none) = some 0
    rw [if_pos rfl, c9_amended_deletion_row ⟨0, []⟩ true "population",
      if_pos ⟨rfl, rfl⟩]
    norm_num
  have hR : (from_dict_row 1 [("school", 5)]) 1 "population" = none := by
    show (if (1 : Nat) = 1 then dict_get [("school", 5)] "population" else none) = none
    rw [if_pos rfl, dict_get_cons, if_neg (by decide)]
    rfl
  rw [hL, hR] at h1
  exact Option.noConfusion h1

/-- C10 amended: merging an allocation update with an all-zero demolition
row preserves every defined cell of the allocation update, and any cell
the merge changes was undefined in the allocation update and receives the
value 0 — the zero row is an identity only up to zero-filling undefined
cells. -/
theorem c10_amended_combine_first (a : UpdateTable) (blk : Nat)
    (row : List (String × ℚ)) (hz : ∀ c v, dict_get row c = some v → v = 0) :
    (∀ i c v, a i c = some v → combine_first a (from_dict_row blk row) i c = some v) ∧
      ∀ i c, combine_first a (from_dict_row blk row) i c ≠ a i c →
        a i c = none ∧ combine_first a (from_dict_row blk row) i c = some 0 := by
  constructor
  · intro i c v hv
    show ((a i c).orElse fun _ => from_dict_row blk row i c) = some v
    rw [hv]
    rfl
  · intro i c hne
    cases ha : a i c with
    | some v =>
      have : combine_first a (from_dict_row blk row) i c = a i c := by
        show ((a i c).orElse fun _ => from_dict_row blk row i c) = a i c
        rw [ha]
        rfl
      exact absurd this hne
    | none =>
      refine ⟨rfl, ?_⟩
      have hcf : combine_first a (from_dict_row blk row) i c = from_dict_row blk row i c := by
        show ((a i c).orElse fun _ => from_dict_row blk row i c) = from_dict_row blk row i c
        rw [ha]
        rfl
      rw [hcf]
      rw [hcf, ha] at hne
      unfold from_dict_row at hne ⊢
      by_cases hib : i = blk
      · rw [if_pos hib] at hne ⊢
        cases hd : dict_get row c with
        | none => exact absurd hd hne
        | some v => rw [hz c v hd]
      · rw [if_neg hib] at hne
        exact absurd rfl hne

/-- C10 amended witness: the all-zero demolition row `{population: 0}`
merged with the one-cell allocation `{1: {school: 5}}`. -/
theorem c10_witness :
    (∀ c v, dict_get [("population", (0 : ℚ))] c = some v → v = 0) ∧
      ((∀ i c v, from_dict_row 1 [("school", 5)] i c = some v →
          combine_first (from_dict_row 1 [("school", 5)])
            (from_dict_row 0 [("population", 0)]) i c = some v) ∧
        ∀ i c, combine_first (from_dict_row 1 [("school", 5)])
              (from_dict_row 0 [("population", 0)]) i c
            ≠ from_dict_row 1 [("school", 5)] i c →
          from_dict_row 1 [("school", 5)] i c = none ∧
            combine_first (from_dict_row 1 [("school", 5)])
              (from_dict_row 0 [("population", 0)]) i c = some 0) := by
  have hz : ∀ c v, dict_get [("population", (0 : ℚ))] c = some v → v = 0 := by
    intro c v h
    rw [dict_get_cons] at h
    by_cases hc : ("population" : String) = c
    · rw [if_pos hc] at h
      exact (Option.some.inj h).symm
    · rw [if_neg hc] at h
      exact absurd h (by simp [dict_get])
  exact ⟨hz, c10_amended_combine_first (from_dict_row 1 [("school", 5)]) 0
    [("population", 0)] hz⟩

/-- Zeroing the selected block's population commutes with the catchment
filter: the catchment rows are exactly the accessibility-qualifying rows
of the original table, each with the selected block's population zeroed. -/
theorem context_gdf_eq (gdf : List BlockRow) (sel : Nat) (accTo accFrom : Nat → ℚ)
    (s : ServiceType) :
    context_gdf gdf sel accTo accFrom s
      = ((gdf.filter fun b =>
          decide (accTo b.id ≤ s.accessibility ∨ accFrom b.id ≤ s.accessibility)).map
          fun b => if b.id = sel then { b with population := 0 } else b) := by
  unfold context_gdf zeroed_gdf
  rw [List.filter_map]
  refine congrArg _ (List.filter_congr fun b _ => ?_)
  show decide (accTo (if b.id = sel then { b with population := 0 } else b).id ≤ s.accessibility
      ∨ accFrom (if b.id = sel then { b with population := 0 } else b).id ≤ s.accessibility) = _
  rw [zero_population_id]

/-- C3: for any selected block and service category, the estimator's
catchment consists of exactly the accessibility-qualifying blocks; local
demand is the demand function summed over the catchment with the selected
block's own population replaced by zero; local capacity is the summed
catchment capacity minus the selected block's own capacity; and the
`(demand_local, capacity_local)` pair is recorded in the returned
constants under the service's name. -/
theorem c3_local_demand_capacity (gdf : List BlockRow) (sel : Nat)
    (accTo accFrom : Nat → ℚ) (servs : List ServiceType) (s : ServiceType)
    (hs : s ∈ servs) :
    (context_gdf gdf sel accTo accFrom s).map BlockRow.id
        = ((gdf.filter fun b =>
            decide (accTo b.id ≤ s.accessibility ∨ accFrom b.id ≤ s.accessibility)).map
            BlockRow.id) ∧
      demand_local gdf sel accTo accFrom s
        = ((gdf.filter fun b =>
            decide (accTo b.id ≤ s.accessibility ∨ accFrom b.id ≤ s.accessibility)).map
            fun b => s.calculate_in_need (if b.id = sel then 0 else b.population)).sum ∧
      capacity_local gdf sel accTo accFrom s
        = ((gdf.filter fun b =>
            decide (accTo b.id ≤ s.accessibility ∨ accFrom b.id ≤ s.accessibility)).map
            fun b => b.capacity s.name).sum
          - (selected_block_row gdf sel).capacity s.name ∧
      (s.name, demand_local gdf sel accTo accFrom s, capacity_local gdf sel accTo accFrom s)
        ∈ (get_capacity_demand gdf sel accTo accFrom servs).1 := by
  refine ⟨?_, ?_, ?_, ?_⟩
  · rw [context_gdf_eq, List.map_map]
    exact List.map_congr_left fun b _ => zero_population_id sel b
  · unfold demand_local
    rw [context_gdf_eq, List.map_map]
    refine congrArg _ (List.map_congr_left fun b _ => ?_)
    show s.calculate_in_need (if b.id = sel then { b with population := 0 } else b).population = _
    rw [zero_population_pop]
  · unfold capacity_local
    rw [context_gdf_eq, List.map_map]
    refine congrArg (fun x => x - (selected_block_row gdf sel).capacity s.name)
      (congrArg _ (List.map_congr_left fun b _ => ?_))
    show (if b.id = sel then { b with population := 0 } else b).capacity s.name = _
    rw [zero_population_capacity]
  · exact List.mem_map_of_mem _ hs

/-- C3 witness: a two-block city where only block 0 lies within the
service's accessibility threshold. -/
theorem c3_witness :
    ((⟨"s", 1, 0, [], fun p => p⟩ : ServiceType) ∈ [(⟨"s", 1, 0, [], fun p => p⟩ : ServiceType)]) ∧
      ((context_gdf [⟨0, 10, fun _ => 5⟩, ⟨1, 7, fun _ => 3⟩] 0 (fun i => (i : ℚ)) (fun _ => 99)
            ⟨"s", 1, 0, [], fun p => p⟩).map BlockRow.id
          = ((([⟨0, 10, fun _ => 5⟩, ⟨1, 7, fun _ => 3⟩] : List BlockRow).filter fun b =>
              decide ((fun i => (i : ℚ)) b.id ≤ (0 : ℚ) ∨ (fun _ => (99 : ℚ)) b.id ≤ (0 : ℚ))).map
              BlockRow.id) ∧
        demand_local [⟨0, 10, fun _ => 5⟩, ⟨1, 7, fun _ => 3⟩] 0 (fun i => (i : ℚ)) (fun _ => 99)
            ⟨"s", 1, 0, [], fun p => p⟩
          = ((([⟨0, 10, fun _ => 5⟩, ⟨1, 7, fun _ => 3⟩] : List BlockRow).filter fun b =>
              decide ((fun i => (i : ℚ)) b.id ≤ (0 : ℚ) ∨ (fun _ => (99 : ℚ)) b.id ≤ (0 : ℚ))).map
              fun b => (fun p => p) (if b.id = 0 then (0 : ℚ) else b.population)).sum ∧
        capacity_local [⟨0, 10, fun _ => 5⟩, ⟨1, 7, fun _ => 3⟩] 0 (fun i => (i : ℚ)) (fun _ => 99)
            ⟨"s", 1, 0, [], fun p => p⟩
          = ((([⟨0, 10, fun _ => 5⟩, ⟨1, 7, fun _ => 3⟩] : List BlockRow).filter fun b =>
              decide ((fun i => (i : ℚ)) b.id ≤ (0 : ℚ) ∨ (fun _ => (99 : ℚ)) b.id ≤ (0 : ℚ))).map
              fun b => b.capacity "s").sum
            - (selected_block_row [⟨0, 10, fun _ => 5⟩, ⟨1, 7, fun _ => 3⟩] 0).capacity "s" ∧
        ("s", demand_local [⟨0, 10, fun _ => 5⟩, ⟨1, 7, fun _ => 3⟩] 0 (fun i => (i : ℚ))
            (fun _ => 99) ⟨"s", 1, 0, [], fun p => p⟩,
          capacity_local [⟨0, 10, fun _ => 5⟩, ⟨1, 7, fun _ => 3⟩] 0 (fun i => (i : ℚ))
            (fun _ => 99) ⟨"s", 1, 0, [], fun p => p⟩)
          ∈ (get_capacity_demand [⟨0, 10, fun _ => 5⟩, ⟨1, 7, fun _ => 3⟩] 0 (fun i => (i : ℚ))
            (fun _ => 99) [⟨"s", 1, 0, [], fun p => p⟩]).1) :=
  ⟨List.mem_singleton.mpr rfl,
    c3_local_demand_capacity [⟨0, 10, fun _ => 5⟩, ⟨1, 7, fun _ => 3⟩] 0 (fun i => (i : ℚ))
      (fun _ => 99) [⟨"s", 1, 0, [], fun p => p⟩] ⟨"s", 1, 0, [], fun p => p⟩
      (List.mem_singleton.mpr rfl)⟩

/-- The running minimum never exceeds its seed nor any scanned value. -/
theorem minGo_le (cl : ServiceType → ℚ) :
    ∀ (l : List ServiceType) (p : ℚ × ServiceType),
      (minGo cl p l).1 ≤ p.1 ∧ ∀ t ∈ l, (minGo cl p l).1 ≤ cl t := by
  intro l
  induction l with
  | nil => exact fun p => ⟨le_refl _, fun t ht => absurd ht (List.not_mem_nil t)⟩
  | cons s l ih =>
    intro p
    by_cases h : cl s < p.1
    · simp only [minGo, if_pos h]
      obtain ⟨h1, h2⟩ := ih (cl s, s)
      refine ⟨h1.trans (le_of_lt h), fun t ht => ?_⟩
      rcases List.mem_cons.mp ht with rfl | ht'
      · exact h1
      · exact h2 t ht'
    · simp only [minGo, if_neg h]
      obtain ⟨h1, h2⟩ := ih p
      refine ⟨h1, fun t ht => ?_⟩
      rcases List.mem_cons.mp ht with rfl | ht'
      · exact h1.trans (not_lt.mp h)
      · exact h2 t ht'

/-- Either the scan keeps its seed, or it returns the first scanned
element attaining a value strictly below the seed and below everything
before it. -/
theorem minGo_spec (cl : ServiceType → ℚ) :
    ∀ (l : List ServiceType) (p : ℚ × ServiceType),
      minGo cl p l = p ∨
        ∃ l₁ l₂, l = l₁ ++ (minGo cl p l).2 :: l₂ ∧
          cl (minGo cl p l).2 = (minGo cl p l).1 ∧
          (minGo cl p l).1 < p.1 ∧
          ∀ t ∈ l₁, (minGo cl p l).1 < cl t := by
  intro l
  induction l with
  | nil => exact fun p => Or.inl rfl
  | cons s l ih =>
    intro p
    by_cases h : cl s < p.1
    · simp only [minGo, if_pos h]
      rcases ih (cl s, s) with h0 | ⟨l₁, l₂, hdec, hclm, hlt, hall⟩
      · right
        refine ⟨[], l, ?_, ?_, ?_, fun t ht => absurd ht (List.not_mem_nil t)⟩
        · rw [h0]
          rfl
        · rw [h0]
        · rw [h0]
          exact h
      · right
        refine ⟨s :: l₁, l₂, ?_, hclm, hlt.trans h, fun t ht => ?_⟩
        · rw [List.cons_append, ← hdec]
        · rcases List.mem_cons.mp ht with rfl | ht'
          · exact hlt
          · exact hall t ht'
    · simp only [minGo, if_neg h]
      rcases ih p with h0 | ⟨l₁, l₂, hdec, hclm, hlt, hall⟩
      · exact Or.inl h0
      · right
        refine ⟨s :: l₁, l₂, ?_, hclm, hlt, fun t ht => ?_⟩
        · rw [List.cons_append, ← hdec]
        · rcases List.mem_cons.mp ht with rfl | ht'
          · exact hlt.trans_le (not_lt.mp h)
          · exact hall t ht'

/-- C4: for a non-empty category list, the estimator's population ceiling
is `max(m / r × 1000, 0)`, where `m` is the minimum of
`capacity_global − demand_global` over all considered categories and `r`
is the demand rate of the minimizing category, the first category in scan
order attaining the minimum (ties keep the earlier category). -/
theorem c4_population_ceiling (gdf : List BlockRow) (sel : Nat)
    (accTo accFrom : Nat → ℚ) (servs : List ServiceType) (h : servs ≠ []) :
    ∃ m smin,
      (get_capacity_demand gdf sel accTo accFrom servs).2
          = some (max (m / smin.demand * 1000) 0) ∧
        capacity_left gdf sel smin = m ∧
        (∀ t ∈ servs, m ≤ capacity_left gdf sel t) ∧
        ∃ l₁ l₂, servs = l₁ ++ smin :: l₂ ∧ ∀ t ∈ l₁, m < capacity_left gdf sel t := by
  cases servs with
  | nil => exact absurd rfl h
  | cons s₀ rest =>
    refine ⟨(minGo (capacity_left gdf sel) (capacity_left gdf sel s₀, s₀) rest).1,
      (minGo (capacity_left gdf sel) (capacity_left gdf sel s₀, s₀) rest).2,
      rfl, ?_, ?_, ?_⟩
    · rcases minGo_spec (capacity_left gdf sel) rest (capacity_left gdf sel s₀, s₀) with
        h0 | ⟨l₁, l₂, hdec, hclm, hlt, hall⟩
      · rw [h0]
      · exact hclm
    · intro t ht
      obtain ⟨h1, h2⟩ := minGo_le (capacity_left gdf sel) rest (capacity_left gdf sel s₀, s₀)
      rcases List.mem_cons.mp ht with rfl | ht'
      · exact h1
      · exact h2 t ht'
    · rcases minGo_spec (capacity_left gdf sel) rest (capacity_left gdf sel s₀, s₀) with
        h0 | ⟨l₁, l₂, hdec, hclm, hlt, hall⟩
      · refine ⟨[], rest, ?_, fun t ht => absurd ht (List.not_mem_nil t)⟩
        rw [h0]
        rfl
      · refine ⟨s₀ :: l₁, l₂, ?_, fun t ht => ?_⟩
        · rw [List.cons_append, ← hdec]
        · rcases List.mem_cons.mp ht with rfl | ht'
          · exact hlt
          · exact hall t ht'

/-- C4 witness: a one-block city with two candidate categories, the
second of which has the smaller global margin. -/
theorem c4_witness :
    (([⟨"a", 2, 0, [], fun p => p⟩, ⟨"b", 4, 0, [], fun p => p + 1⟩] : List ServiceType) ≠ []) ∧
      ∃ m smin,
        (get_capacity_demand [⟨0, 10, fun _ => 5⟩] 0 (fun _ => 0) (fun _ => 0)
              [⟨"a", 2, 0, [], fun p => p⟩, ⟨"b", 4, 0, [], fun p => p + 1⟩]).2
            = some (max (m / smin.demand * 1000) 0) ∧
          capacity_left [⟨0, 10, fun _ => 5⟩] 0 smin = m ∧
          (∀ t ∈ ([⟨"a", 2, 0, [], fun p => p⟩, ⟨"b", 4, 0, [], fun p => p + 1⟩] :
              List ServiceType), m ≤ capacity_left [⟨0, 10, fun _ => 5⟩] 0 t) ∧
          ∃ l₁ l₂,
            ([⟨"a", 2, 0, [], fun p => p⟩, ⟨"b", 4, 0, [], fun p => p + 1⟩] :
                List ServiceType) = l₁ ++ smin :: l₂ ∧
              ∀ t ∈ l₁, m < capacity_left [⟨0, 10, fun _ => 5⟩] 0 t :=
  ⟨List.cons_ne_nil _ _,
    c4_population_ceiling [⟨0, 10, fun _ => 5⟩] 0 (fun _ => 0) (fun _ => 0)
      [⟨"a", 2, 0, [], fun p => p⟩, ⟨"b", 4, 0, [], fun p => p + 1⟩]
      (List.cons_ne_nil _ _)⟩

end BlocksNet
